import Mathlib

/-!
Verification development for the fastify-auth-template repository.

The embedding below translates the authentication service
(src/services/auth.service.ts), the auth plugin (src/plugins/auth.ts)
and the prisma create extension (src/plugins/prisma.ts) into Lean.

Modelling conventions:
  - Signed JWTs are modelled symbolically: `Token.signed p ttl iat` is
    the string produced by jwt.sign of payload `p` with option
    expiresIn `ttl` at clock second `iat`.  HS256 signing is
    deterministic, so two sign calls with equal payload, ttl and
    timestamp yield the same string; distinct payload, ttl or
    timestamp yield distinct strings, and a string that is not the
    output of jwt.sign with the shared secret is `Token.raw s`.
  - bcrypt is modelled symbolically: `Password.hashed s` is the bcrypt
    hash of the plaintext `s`; a stored plaintext would be
    `Password.plain s`.  bcrypt.compare(p, h) holds iff h is the hash
    of p.
  - The prisma user table is a `List User`; findUnique by email or id
    is `List.find?`, and update by id maps over the list.
  - A thrown FastifyError is an `Except.error` carrying the
    statusCode and message; every operation also returns the final
    table so that the absence of writes on the error paths is a
    provable statement rather than a convention.
  - The clock `now` (seconds) is passed explicitly; jwt.sign embeds
    it as iat and jwt.verify checks exp = iat + ttl against it.
-/

inductive UserRole where
  | USER
  | ADMIN
  | MODERATOR
deriving DecidableEq, Repr

structure TokenPayload where
  id : Nat
  name : String
  role : UserRole
deriving DecidableEq, Repr

inductive Token where
  | signed (payload : TokenPayload) (ttl : Nat) (iat : Nat)
  | raw (s : String)
deriving DecidableEq, Repr

/-- jwt.sign with expiresIn "15m". -/
def accessTokenTtl : Nat := 900

/-- jwt.sign with expiresIn "7d". -/
def refreshTokenTtl : Nat := 604800

/-- jwt.sign(payload, \x7b expiresIn: ttl \x7d) called at second `now`. -/
def jwtSign (p : TokenPayload) (ttl : Nat) (now : Nat) : Token :=
  Token.signed p ttl now

/-- jwt.verify at second `now`: returns the decoded payload for a token
signed with the shared secret and not yet expired, and fails (throws in
the source) on every other string. -/
def jwtVerify (now : Nat) : Token → Option TokenPayload
  | Token.signed p ttl iat => if now < iat + ttl then some p else none
  | Token.raw _ => none

inductive Password where
  | plain (s : String)
  | hashed (s : String)
deriving DecidableEq, Repr

/-- bcrypt.hash(s, 10), as applied by the prisma user.create extension in
src/plugins/prisma.ts. -/
def bcryptHash (s : String) : Password :=
  Password.hashed s

/-- bcrypt.compare(password, stored). -/
def bcryptCompare (password : String) (stored : Password) : Bool :=
  stored == bcryptHash password

/-- One row of the prisma user table.  `refreshToken` is the nullable
refreshToken column: `none` is SQL null, `some t` holds the string t
(possibly the empty string). -/
structure User where
  id : Nat
  email : String
  password : Password
  name : String
  role : UserRole
  refreshToken : Option Token
deriving DecidableEq, Repr

/-- prisma.user.findUnique(\x7b where: \x7b email \x7d \x7d). -/
def findByEmail (db : List User) (email : String) : Option User :=
  db.find? (fun u => u.email == email)

/-- prisma.user.findUnique(\x7b where: \x7b id \x7d \x7d). -/
def findById (db : List User) (id : Nat) : Option User :=
  db.find? (fun u => u.id == id)

/-- prisma.user.update(\x7b where: \x7b id \x7d, data: \x7b refreshToken \x7d \x7d). -/
def updateRefreshToken (db : List User) (id : Nat) (tok : Option Token) :
    List User :=
  db.map (fun u => if u.id == id then { u with refreshToken := tok } else u)

/-- A thrown FastifyError: statusCode and message. -/
structure ErrResp where
  statusCode : Nat
  message : String
deriving DecidableEq, Repr

def invalidCredentials : ErrResp :=
  { statusCode := 401, message := "Invalid credentials" }

def invalidOrExpired : ErrResp :=
  { statusCode := 401, message := "Invalid or expired refresh token" }

/-- JavaScript truthiness of the nullable string column `user.refreshToken`
in `if (user.refreshToken)`: null and the empty string are falsy. -/
def refreshSlotTruthy : Option Token → Bool
  | none => false
  | some (Token.raw s) => !(s == "")
  | some (Token.signed _ _ _) => true

/-- Result of a successful loginUser: the row as read (before the update),
the access token and the persisted refresh token value. -/
structure LoginOk where
  user : User
  accessToken : Token
  refreshToken : Token
deriving DecidableEq, Repr

/-- AuthService.loginUser (src/services/auth.service.ts).
Returns the outcome together with the final user table. -/
def loginUser (now : Nat) (db : List User) (email password : String) :
    Except ErrResp LoginOk × List User :=
  match findByEmail db email with
  | none => (Except.error invalidCredentials, db)
  | some user =>
    if bcryptCompare password user.password then
      let accessToken := jwtSign ⟨user.id, user.name, user.role⟩ accessTokenTtl now
      -- let refreshToken = ""; reassigned only inside if (user.refreshToken)
      let refreshToken : Token :=
        if refreshSlotTruthy user.refreshToken then
          match user.refreshToken with
          | some stored =>
            match jwtVerify now stored with
            | some _ => stored
            | none => jwtSign ⟨user.id, user.name, user.role⟩ refreshTokenTtl now
          | none => Token.raw ""
        else Token.raw ""
      (Except.ok ⟨user, accessToken, refreshToken⟩,
       updateRefreshToken db user.id (some refreshToken))
    else (Except.error invalidCredentials, db)

/-- Result of a successful refreshUserToken. -/
structure RotateOk where
  accessToken : Token
  refreshToken : Token
deriving DecidableEq, Repr

/-- AuthService.refreshUserToken (src/services/auth.service.ts).
Every failure, including the inner "Invalid refresh token" throw, is
replaced by the surrounding catch with the single 401
"Invalid or expired refresh token" error. -/
def refreshUserToken (now : Nat) (db : List User) (refreshToken : Token) :
    Except ErrResp RotateOk × List User :=
  match jwtVerify now refreshToken with
  | none => (Except.error invalidOrExpired, db)
  | some payload =>
    match findById db payload.id with
    | none => (Except.error invalidOrExpired, db)
    | some user =>
      if user.refreshToken == some refreshToken then
        let accessToken := jwtSign ⟨user.id, user.name, user.role⟩ accessTokenTtl now
        let newRefreshToken := jwtSign ⟨user.id, user.name, user.role⟩ refreshTokenTtl now
        (Except.ok ⟨accessToken, newRefreshToken⟩,
         updateRefreshToken db user.id (some newRefreshToken))
      else (Except.error invalidOrExpired, db)

/-- AuthService.logoutUser (src/services/auth.service.ts). -/
def logoutUser (db : List User) (userId : Nat) :
    Except ErrResp String × List User :=
  match findById db userId with
  | none => (Except.error { statusCode := 404, message := "User not found" }, db)
  | some _ =>
    (Except.ok "Logged out successfully", updateRefreshToken db userId none)

/-- The row returned by prisma.user.create with omit password: every
column of the created row except the password hash. -/
structure CreatedUser where
  id : Nat
  email : String
  name : String
  role : UserRole
  refreshToken : Option Token
deriving DecidableEq, Repr

/-- Modelled from the spec: the prisma schema (not under src/) assigns the
created row a fresh id and defaults role to USER and the refreshToken
column to null ("create the Account with role defaulted to USER and
currentRefreshToken null"; "a non-null id").  The bcrypt hashing of the
password is the user.create extension of src/plugins/prisma.ts, which is
under src/.  `newId` stands for the auto-assigned id. -/
def prismaCreateUser (email password name : String) (newId : Nat) : User :=
  { id := newId
    email := email
    password := bcryptHash password
    name := name
    role := UserRole.USER
    refreshToken := none }

/-- AuthService.registerUser (src/services/auth.service.ts): conflict
check, then prisma.user.create with data = the request body and
omit: \x7b password: true \x7d. -/
def registerUser (db : List User) (email password name : String)
    (newId : Nat) : Except ErrResp CreatedUser × List User :=
  match findByEmail db email with
  | some _ =>
    (Except.error { statusCode := 403, message := "User Already exist" }, db)
  | none =>
    let created := prismaCreateUser email password name newId
    (Except.ok ⟨created.id, created.email, created.name, created.role,
                created.refreshToken⟩,
     db ++ [created])

/-- A reply written by a hook or handler: status code and body tag. -/
structure Reply where
  status : Nat
  body : String
deriving DecidableEq, Repr

/-- The state fastify attaches to one request: the bearer token of the
Authorization header, and request.user once jwtVerify has populated it. -/
structure Request where
  bearer : Option Token
  user : Option TokenPayload
deriving DecidableEq, Repr

/-- The authenticate decorator (src/plugins/auth.ts): request.jwtVerify()
verifies the bearer access token and populates request.user; on a missing
header or failed verification the catch sends 401 Unauthorized. -/
def authenticate (now : Nat) (req : Request) : Request × Option Reply :=
  match req.bearer with
  | none => (req, some { status := 401, body := "Unauthorized" })
  | some tok =>
    match jwtVerify now tok with
    | some p => ({ req with user := some p }, none)
    | none => (req, some { status := 401, body := "Unauthorized" })

/-- The authorize decorator (src/plugins/auth.ts): sends 403 exactly when
request.user is present and its role is not in the required list. -/
def authorize (roles : List UserRole) (req : Request) : Option Reply :=
  match req.user with
  | some u =>
    if !(roles.contains u.role) then
      some { status := 403, body := "Forbidden - insufficient role" }
    else none
  | none => none


/-- Modelled from the spec: the transport adapter (fastify) runs the
preHandler hooks of a protected route in order and, once a hook has sent
a reply, skips the remaining hooks and the route handler ("on failure
the request must be rejected before any handler logic runs").  The
result lists every reply written and records whether the handler ran. -/
def runProtectedRoute (now : Nat) (roles : List UserRole)
    (handlerReply : Reply) (req : Request) : List Reply × Bool :=
  match authenticate now req with
  | (_, some r) => ([r], false)
  | (req₂, none) =>
    match authorize roles req₂ with
    | some r => ([r], false)
    | none => ([handlerReply], true)

/-- The read phase of refreshUserToken: verification, account lookup and
the exact-equality check; it performs no write.  Returns the account the
call matched. -/
def rotateRead (now : Nat) (db : List User) (T : Token) : Option User :=
  match jwtVerify now T with
  | none => none
  | some payload =>
    match findById db payload.id with
    | none => none
    | some user =>
      if user.refreshToken == some T then some user else none

/-- The write phase of refreshUserToken: signs the replacement refresh
token and performs the unconditional prisma.user.update keyed only on
the account id. -/
def rotateWrite (now : Nat) (db : List User) (user : User) :
    Token × List User :=
  let newRefreshToken := jwtSign ⟨user.id, user.name, user.role⟩ refreshTokenTtl now
  (newRefreshToken, updateRefreshToken db user.id (some newRefreshToken))

/-- Two rotate calls presenting the same token, scheduled so that both
read phases run before either write phase (an interleaving the await
points of the source permit).  Each caller that passed its read phase
performs its write unconditionally and reports success. -/
def interleavedRotates (t₁ t₂ : Nat) (db : List User) (T : Token) :
    (Except ErrResp RotateOk × Except ErrResp RotateOk) × List User :=
  match rotateRead t₁ db T, rotateRead t₂ db T with
  | none, none =>
    ((Except.error invalidOrExpired, Except.error invalidOrExpired), db)
  | none, some u₂ =>
    ((Except.error invalidOrExpired,
      Except.ok ⟨jwtSign ⟨u₂.id, u₂.name, u₂.role⟩ accessTokenTtl t₂,
                 (rotateWrite t₂ db u₂).1⟩),
     (rotateWrite t₂ db u₂).2)
  | some u₁, none =>
    ((Except.ok ⟨jwtSign ⟨u₁.id, u₁.name, u₁.role⟩ accessTokenTtl t₁,
                 (rotateWrite t₁ db u₁).1⟩,
      Except.error invalidOrExpired),
     (rotateWrite t₁ db u₁).2)
  | some u₁, some u₂ =>
    ((Except.ok ⟨jwtSign ⟨u₁.id, u₁.name, u₁.role⟩ accessTokenTtl t₁,
                 (rotateWrite t₁ db u₁).1⟩,
      Except.ok ⟨jwtSign ⟨u₂.id, u₂.name, u₂.role⟩ accessTokenTtl t₂,
                 (rotateWrite t₂ (rotateWrite t₁ db u₁).2 u₂).1⟩),
     (rotateWrite t₂ (rotateWrite t₁ db u₁).2 u₂).2)

/-!
Concrete fixtures shared by the closed theorems below.
-/

/-- The row registerUser creates for email a@x.com, password password123
and name A: the state of a freshly registered account. -/
def alice : User :=
  { id := 1, email := "a@x.com", password := Password.hashed "password123",
    name := "A", role := UserRole.USER, refreshToken := none }

/-- alice with a chosen refreshToken slot. -/
def aliceWith (t : Option Token) : User :=
  { alice with refreshToken := t }

/-- A refresh token signed for alice at second 0. -/
def tokenA : Token :=
  Token.signed ⟨1, "A", UserRole.USER⟩ refreshTokenTtl 0

/-- A refresh token signed for alice at second 1. -/
def tokenA1 : Token :=
  Token.signed ⟨1, "A", UserRole.USER⟩ refreshTokenTtl 1

/-- The 403 reply that authorize sends. -/
def forbiddenReply : Reply :=
  { status := 403, body := "Forbidden - insufficient role" }

/-!
Helper lemmas about the embedded store operations.
-/

theorem findById_some_id (db : List User) (i : Nat) (u : User)
    (h : findById db i = some u) : u.id = i := by
  unfold findById at h
  simpa using List.find?_some h

theorem findById_updateRefreshToken (db : List User) (uid : Nat)
    (tok : Option Token) :
    findById (updateRefreshToken db uid tok) uid =
      (findById db uid).map (fun u => { u with refreshToken := tok }) := by
  induction db with
  | nil => rfl
  | cons u rest ih =>
    cases h : (u.id == uid) with
    | true =>
      simp [findById, updateRefreshToken, List.find?, h]
    | false =>
      simp only [findById, updateRefreshToken, List.map, List.find?, h,
        if_false, Bool.false_eq_true, ite_false] at *
      exact ih

/-- Whenever the presented token verifies to a payload whose account
either is missing or stores a different refreshToken value, rotation
fails with the 401 error and nothing else. -/
theorem rotate_fails_of_slot_ne (now : Nat) (db : List User) (T : Token)
    (h : ∀ q user, jwtVerify now T = some q → findById db q.id = some user →
         user.refreshToken ≠ some T) :
    (refreshUserToken now db T).1 = Except.error invalidOrExpired := by
  unfold refreshUserToken
  split
  · rfl
  · rename_i payload hv
    split
    · rfl
    · rename_i user hf
      split
      · rename_i hmatch
        exact absurd (by simpa using hmatch) (h payload user hv hf)
      · rfl

/-- Characterisation of a successful rotation: the token verified, the
account resolved, the stored slot matched exactly, the result holds the
two freshly signed tokens, and the table was updated at that account. -/
theorem rotate_ok_spec (now : Nat) (db : List User) (T : Token)
    (res : RotateOk) (db2 : List User)
    (h : refreshUserToken now db T = (Except.ok res, db2)) :
    ∃ q user, jwtVerify now T = some q ∧ findById db q.id = some user ∧
      user.refreshToken = some T ∧
      res = ⟨jwtSign ⟨user.id, user.name, user.role⟩ accessTokenTtl now,
             jwtSign ⟨user.id, user.name, user.role⟩ refreshTokenTtl now⟩ ∧
      db2 = updateRefreshToken db user.id
              (some (jwtSign ⟨user.id, user.name, user.role⟩ refreshTokenTtl now)) := by
  unfold refreshUserToken at h
  split at h
  · simp at h
  · rename_i payload hv
    split at h
    · simp at h
    · rename_i user hf
      split at h
      · rename_i hmatch
        simp only [Prod.mk.injEq, Except.ok.injEq] at h
        obtain ⟨h1, h2⟩ := h
        exact ⟨payload, user, hv, hf, by simpa using hmatch, h1.symm, h2.symm⟩
      · simp at h

/-- A verified token pins down its payload at every clock value at which
it verifies at all. -/
theorem jwtVerify_payload_unique (now now₂ : Nat) (T : Token)
    (q q₂ : TokenPayload) (h : jwtVerify now T = some q)
    (h₂ : jwtVerify now₂ T = some q₂) : q₂ = q := by
  cases T with
  | raw s => simp [jwtVerify] at h
  | signed p ttl iat =>
    unfold jwtVerify at h h₂
    by_cases hlt : now < iat + ttl
    · by_cases hlt₂ : now₂ < iat + ttl
      · simp only [hlt, hlt₂, if_true, ite_true, Option.some.injEq] at h h₂
        rw [← h₂, ← h]
      · simp [hlt₂] at h₂
    · simp [hlt] at h

/-- After a successful rotation whose newly signed refresh token differs
from the presented one, presenting the old token again fails. -/
theorem rotate_then_replay_fails (now now₂ : Nat) (db db2 : List User)
    (T : Token) (res : RotateOk)
    (h : refreshUserToken now db T = (Except.ok res, db2))
    (hne : res.refreshToken ≠ T) :
    (refreshUserToken now₂ db2 T).1 = Except.error invalidOrExpired := by
  obtain ⟨q, user, hv, hf, _, hres, hdb2⟩ := rotate_ok_spec now db T res db2 h
  have hid : user.id = q.id := findById_some_id db q.id user hf
  apply rotate_fails_of_slot_ne
  intro q₂ user₂ hv₂ hf₂
  have hq : q₂ = q := jwtVerify_payload_unique now now₂ T q q₂ hv hv₂
  rw [hq] at hf₂
  rw [hdb2, hid, findById_updateRefreshToken, hf] at hf₂
  simp only [Option.map_some'] at hf₂
  injection hf₂ with hX
  intro hcontra
  rw [← hX] at hcontra
  simp only [Option.some.injEq] at hcontra
  apply hne
  rw [hres, hid]
  exact hcontra

/-!
Claim theorems.
-/

/-- C1 (code bug evidence): immediately after register the refreshToken
slot is null, so loginUser keeps the initial empty-string refresh token:
the minting fallback sits inside if (user.refreshToken) and is never
reached when the slot is null or empty.  The login succeeds, persists
and returns the empty string, jwt verification rejects that string, and
the subsequent rotate fails with the 401 error, contradicting the spec
scenario (register, login, rotate gives 200) and the repository e2e
test that asserts it. -/
theorem login_after_register_persists_dead_token :
    registerUser [] "a@x.com" "password123" "A" 1 =
      (Except.ok ⟨1, "a@x.com", "A", UserRole.USER, none⟩, [alice]) ∧
    (loginUser 0 [alice] "a@x.com" "password123").1 =
      Except.ok ⟨alice, Token.signed ⟨1, "A", UserRole.USER⟩ accessTokenTtl 0,
                 Token.raw ""⟩ ∧
    (loginUser 0 [alice] "a@x.com" "password123").2 =
      [aliceWith (some (Token.raw ""))] ∧
    jwtVerify 0 (Token.raw "") = none ∧
    (refreshUserToken 0 [aliceWith (some (Token.raw ""))] (Token.raw "")).1 =
      Except.error invalidOrExpired :=
  ⟨rfl, rfl, rfl, rfl, rfl⟩

/-- C2 (amended): a successful rotation overwrites the stored slot of the
resolved account with the refresh token freshly signed at the rotation
clock, and presenting the same token afterwards fails with the 401
InvalidOrExpired error, provided the freshly signed token differs from
the presented one (jwt signing re-issues the identical string when the
claims and the clock second coincide). -/
theorem rotate_single_use (now now₂ : Nat) (db db2 : List User) (T : Token)
    (res : RotateOk) (q : TokenPayload) (user : User)
    (h : refreshUserToken now db T = (Except.ok res, db2))
    (hv : jwtVerify now T = some q)
    (hf : findById db q.id = some user)
    (hne : res.refreshToken ≠ T) :
    res.refreshToken = jwtSign ⟨user.id, user.name, user.role⟩ refreshTokenTtl now ∧
    findById db2 q.id = some { user with refreshToken := some res.refreshToken } ∧
    (refreshUserToken now₂ db2 T).1 = Except.error invalidOrExpired ∧
    invalidOrExpired.statusCode = 401 := by
  obtain ⟨q₀, user₀, hv₀, hf₀, _hslot, hres, hdb2⟩ := rotate_ok_spec now db T res db2 h
  rw [hv] at hv₀
  have hq : q = q₀ := Option.some.inj hv₀
  subst hq
  rw [hf] at hf₀
  have hu : user = user₀ := Option.some.inj hf₀
  subst hu
  have hid : user.id = q.id := findById_some_id db q.id user hf
  subst hres
  subst hdb2
  refine ⟨rfl, ?_, ?_, rfl⟩
  · rw [← hid] at hf ⊢
    rw [findById_updateRefreshToken, hf, Option.map_some']
  · exact rotate_then_replay_fails now now₂ db _ T _ h hne

/-- Witness for rotate_single_use: a stored token signed at second 0 is
rotated at second 1, the slot now holds the token signed at second 1,
and replaying the old token at second 2 fails with the 401 error. -/
theorem rotate_single_use_witness :
    (⟨Token.signed ⟨1, "A", UserRole.USER⟩ accessTokenTtl 1, tokenA1⟩ : RotateOk).refreshToken =
      jwtSign ⟨1, "A", UserRole.USER⟩ refreshTokenTtl 1 ∧
    findById [aliceWith (some tokenA1)] 1 = some (aliceWith (some tokenA1)) ∧
    (refreshUserToken 2 [aliceWith (some tokenA1)] tokenA).1 =
      Except.error invalidOrExpired ∧
    invalidOrExpired.statusCode = 401 := by
  exact rotate_single_use 1 2 [aliceWith (some tokenA)] [aliceWith (some tokenA1)]
    tokenA ⟨Token.signed ⟨1, "A", UserRole.USER⟩ accessTokenTtl 1, tokenA1⟩
    ⟨1, "A", UserRole.USER⟩ (aliceWith (some tokenA)) rfl rfl rfl (by decide)

/-- C2 counterexample: rotating at the very clock second at which the
stored token was signed re-signs the identical token, so the same
presented token rotates successfully twice in a row, against the claim
that a second rotate with it must fail with a 401 error. -/
theorem rotate_same_second_replay_counterexample :
    refreshUserToken 0 [aliceWith (some tokenA)] tokenA =
      (Except.ok ⟨Token.signed ⟨1, "A", UserRole.USER⟩ accessTokenTtl 0, tokenA⟩,
       [aliceWith (some tokenA)]) ∧
    (refreshUserToken 0 (refreshUserToken 0 [aliceWith (some tokenA)] tokenA).2 tokenA).1 =
      Except.ok ⟨Token.signed ⟨1, "A", UserRole.USER⟩ accessTokenTtl 0, tokenA⟩ :=
  ⟨rfl, rfl⟩

/-- C3: with an identity populated on the request, authorize sends the
403 Forbidden reply exactly when the role lies outside the required
list, and sends nothing otherwise; in particular authorize([ADMIN])
rejects USER and MODERATOR and accepts ADMIN, and
authorize([ADMIN, MODERATOR]) accepts ADMIN and MODERATOR and rejects
USER. -/
theorem authorize_is_role_membership (roles : List UserRole)
    (b bb : Option Token) (p : TokenPayload) (i : Nat) (nm : String) :
    (authorize roles { bearer := b, user := some p } = some forbiddenReply ↔
       p.role ∉ roles) ∧
    (authorize roles { bearer := b, user := some p } = none ↔ p.role ∈ roles) ∧
    authorize [UserRole.ADMIN]
      { bearer := bb, user := some ⟨i, nm, UserRole.USER⟩ } = some forbiddenReply ∧
    authorize [UserRole.ADMIN]
      { bearer := bb, user := some ⟨i, nm, UserRole.MODERATOR⟩ } = some forbiddenReply ∧
    authorize [UserRole.ADMIN]
      { bearer := bb, user := some ⟨i, nm, UserRole.ADMIN⟩ } = none ∧
    authorize [UserRole.ADMIN, UserRole.MODERATOR]
      { bearer := bb, user := some ⟨i, nm, UserRole.ADMIN⟩ } = none ∧
    authorize [UserRole.ADMIN, UserRole.MODERATOR]
      { bearer := bb, user := some ⟨i, nm, UserRole.MODERATOR⟩ } = none ∧
    authorize [UserRole.ADMIN, UserRole.MODERATOR]
      { bearer := bb, user := some ⟨i, nm, UserRole.USER⟩ } = some forbiddenReply := by
  refine ⟨?_, ?_, rfl, rfl, rfl, rfl, rfl, rfl⟩ <;>
    simp [authorize, forbiddenReply]

/-- C9: with no identity populated on the request, authorize sends no
reply whatever the required-role list is: the membership test is guarded
by the presence of request.user, so a missing identity passes the role
gate. -/
theorem authorize_passes_missing_identity (roles : List UserRole)
    (b : Option Token) :
    authorize roles { bearer := b, user := none } = none := rfl

/-- C4: a login with an unknown email and a login with a known email but
a wrong password produce the identical client-visible failure: the same
401 status and the same Invalid credentials message, with the table
unchanged, so the response does not reveal whether the email exists. -/
theorem login_failures_indistinguishable (now now₂ : Nat) (db db₂ : List User)
    (email email₂ password password₂ : String) (u : User)
    (h1 : findByEmail db email = none)
    (h2 : findByEmail db₂ email₂ = some u)
    (h3 : bcryptCompare password₂ u.password = false) :
    loginUser now db email password = (Except.error invalidCredentials, db) ∧
    loginUser now₂ db₂ email₂ password₂ = (Except.error invalidCredentials, db₂) ∧
    invalidCredentials.statusCode = 401 ∧
    invalidCredentials.message = "Invalid credentials" := by
  refine ⟨?_, ?_, rfl, rfl⟩
  · unfold loginUser
    rw [h1]
  · unfold loginUser
    rw [h2]
    simp [h3]

/-- Witness for login_failures_indistinguishable at an empty table and at
a table holding alice with a wrong password. -/
theorem login_failures_indistinguishable_witness :
    loginUser 0 [] "b@x.com" "pw" = (Except.error invalidCredentials, []) ∧
    loginUser 0 [alice] "a@x.com" "wrongpass" =
      (Except.error invalidCredentials, [alice]) ∧
    invalidCredentials.statusCode = 401 ∧
    invalidCredentials.message = "Invalid credentials" := by
  exact login_failures_indistinguishable 0 0 [] [alice] "b@x.com" "a@x.com"
    "pw" "wrongpass" alice rfl rfl rfl

/-- C5: logout of a missing account id fails with the 404 error and the
table is unchanged; logout of an existing account succeeds and nulls its
refreshToken slot, after which a rotate presenting any token that
resolves to that account (in particular the pre-logout refresh token)
fails with the 401 error at the exact-equality check. -/
theorem logout_clears_refresh_slot (db dbM : List User) (uid uidM now : Nat)
    (u : User) (T : Token) (q : TokenPayload)
    (hm : findById dbM uidM = none)
    (hf : findById db uid = some u)
    (hv : jwtVerify now T = some q)
    (hq : q.id = uid) :
    logoutUser dbM uidM =
      (Except.error ⟨404, "User not found"⟩, dbM) ∧
    logoutUser db uid =
      (Except.ok "Logged out successfully", updateRefreshToken db uid none) ∧
    findById (updateRefreshToken db uid none) uid =
      some { u with refreshToken := none } ∧
    (refreshUserToken now (updateRefreshToken db uid none) T).1 =
      Except.error invalidOrExpired := by
  refine ⟨?_, ?_, ?_, ?_⟩
  · unfold logoutUser
    rw [hm]
  · unfold logoutUser
    rw [hf]
  · rw [findById_updateRefreshToken, hf, Option.map_some']
  · apply rotate_fails_of_slot_ne
    intro q₂ user₂ hv₂ hf₂
    have hqq : q₂ = q := jwtVerify_payload_unique now now T q q₂ hv hv₂
    subst hqq
    rw [hq, findById_updateRefreshToken, hf, Option.map_some'] at hf₂
    injection hf₂ with hX
    rw [← hX]
    simp

/-- Witness for logout_clears_refresh_slot: alice holds tokenA, logout of
a missing id 5 fails 404, logout of alice nulls the slot, and rotating
tokenA afterwards fails with the 401 error. -/
theorem logout_clears_refresh_slot_witness :
    logoutUser [] 5 = (Except.error ⟨404, "User not found"⟩, []) ∧
    logoutUser [aliceWith (some tokenA)] 1 =
      (Except.ok "Logged out successfully",
       updateRefreshToken [aliceWith (some tokenA)] 1 none) ∧
    findById (updateRefreshToken [aliceWith (some tokenA)] 1 none) 1 =
      some (aliceWith none) ∧
    (refreshUserToken 3 (updateRefreshToken [aliceWith (some tokenA)] 1 none)
        tokenA).1 = Except.error invalidOrExpired := by
  exact logout_clears_refresh_slot [aliceWith (some tokenA)] [] 1 5 3
    (aliceWith (some tokenA)) tokenA ⟨1, "A", UserRole.USER⟩ rfl rfl rfl rfl

/-- C6: register fails with the 403 conflict error exactly when an
account with the email exists, leaving the table unchanged; otherwise it
appends an account whose role is USER, whose refreshToken slot is null
and whose stored password is the bcrypt hash of the plaintext (never the
stored form of the plaintext itself), and returns the created account
with its id and without the password field. -/
theorem register_conflict_or_create (db dbF : List User)
    (email emailF password passwordF nm nmF : String) (newId : Nat) (u : User)
    (hc : findByEmail db email = some u)
    (hf : findByEmail dbF emailF = none) :
    registerUser db email password nm newId =
      (Except.error ⟨403, "User Already exist"⟩, db) ∧
    registerUser dbF emailF passwordF nmF newId =
      (Except.ok ⟨newId, emailF, nmF, UserRole.USER, none⟩,
       dbF ++ [{ id := newId, email := emailF,
                 password := bcryptHash passwordF, name := nmF,
                 role := UserRole.USER, refreshToken := none }]) ∧
    bcryptHash passwordF ≠ Password.plain passwordF := by
  refine ⟨?_, ?_, by simp [bcryptHash]⟩
  · unfold registerUser
    rw [hc]
  · unfold registerUser
    rw [hf]
    rfl

/-- Witness for register_conflict_or_create: re-registering a@x.com over
alice fails 403, and registering b@x.com into the empty table creates
the USER account with a hashed password and a null slot. -/
theorem register_conflict_or_create_witness :
    registerUser [alice] "a@x.com" "pw2" "B" 2 =
      (Except.error ⟨403, "User Already exist"⟩, [alice]) ∧
    registerUser [] "b@x.com" "password456" "B" 2 =
      (Except.ok ⟨2, "b@x.com", "B", UserRole.USER, none⟩,
       [] ++ [{ id := 2, email := "b@x.com",
                password := bcryptHash "password456", name := "B",
                role := UserRole.USER, refreshToken := none }]) ∧
    bcryptHash "password456" ≠ Password.plain "password456" := by
  exact register_conflict_or_create [alice] [] "a@x.com" "b@x.com" "pw2"
    "password456" "B" "B" 2 alice rfl rfl

/-- C10: when loginUser fails with its 401 error or refreshUserToken
fails with its 401 error, the user table comes back exactly as it was:
the single persistence update of each operation sits after every check,
so no account field is written on any failure path. -/
theorem error_paths_write_nothing (now nowR : Nat) (db dbR : List User)
    (email password : String) (T : Token) (e eR : ErrResp)
    (h1 : (loginUser now db email password).1 = Except.error e)
    (h2 : (refreshUserToken nowR dbR T).1 = Except.error eR) :
    (loginUser now db email password).2 = db ∧
    (refreshUserToken nowR dbR T).2 = dbR := by
  constructor
  · revert h1
    unfold loginUser
    split
    · intro _; rfl
    · split
      · intro h1; simp at h1
      · intro _; rfl
  · revert h2
    unfold refreshUserToken
    split
    · intro _; rfl
    · split
      · intro _; rfl
      · split
        · intro h2; simp at h2
        · intro _; rfl

/-- Witness for error_paths_write_nothing: a login on the empty table and
a rotate of an unsigned string both fail and return the table unchanged. -/
theorem error_paths_write_nothing_witness :
    (loginUser 0 [] "a@x.com" "pw").2 = [] ∧
    (refreshUserToken 0 [alice] (Token.raw "junk")).2 = [alice] := by
  exact error_paths_write_nothing 0 0 [] [alice] "a@x.com" "pw"
    (Token.raw "junk") invalidCredentials invalidOrExpired rfl rfl

/-- The monolithic refreshUserToken is exactly the read phase followed,
on success, by the write phase. -/
theorem refreshUserToken_eq_phases (now : Nat) (db : List User) (T : Token) :
    refreshUserToken now db T =
      match rotateRead now db T with
      | none => (Except.error invalidOrExpired, db)
      | some user =>
        (Except.ok ⟨jwtSign ⟨user.id, user.name, user.role⟩ accessTokenTtl now,
                    (rotateWrite now db user).1⟩,
         (rotateWrite now db user).2) := by
  unfold refreshUserToken rotateRead rotateWrite
  split
  · rfl
  · split
    · rfl
    · split
      · rfl
      · rfl

/-- The only reply authenticate ever sends is the 401 Unauthorized one. -/
theorem authenticate_reply_is_401 (now : Nat) (req : Request) (r : Reply)
    (h : (authenticate now req).2 = some r) :
    r = { status := 401, body := "Unauthorized" } := by
  unfold authenticate at h
  split at h
  · simp only at h
    exact (Option.some.inj h).symm
  · split at h
    · simp at h
    · simp only at h
      exact (Option.some.inj h).symm

/-- The only reply authorize ever sends is the 403 Forbidden one. -/
theorem authorize_reply_is_403 (roles : List UserRole) (req : Request)
    (r : Reply) (h : authorize roles req = some r) : r = forbiddenReply := by
  unfold authorize at h
  split at h
  · split at h
    · exact (Option.some.inj h).symm
    · simp at h
  · simp at h

/-- C7: for a protected route composed of authenticate, authorize and
the handler, a failed authentication produces exactly one 401 reply with
the handler never running, and a passed authentication followed by a
failed authorization produces exactly one 403 reply with the handler
never running: the rejection precedes and prevents all handler logic. -/
theorem gate_rejection_precedes_handler (now now₂ : Nat)
    (roles roles₂ : List UserRole) (hr hr₂ r r₂ : Reply)
    (req reqB reqB₂ : Request)
    (hA : (authenticate now req).2 = some r)
    (hB1 : authenticate now₂ reqB = (reqB₂, none))
    (hB2 : authorize roles₂ reqB₂ = some r₂) :
    runProtectedRoute now roles hr req = ([r], false) ∧ r.status = 401 ∧
    runProtectedRoute now₂ roles₂ hr₂ reqB = ([r₂], false) ∧
    r₂.status = 403 := by
  refine ⟨?_, ?_, ?_, ?_⟩
  · unfold runProtectedRoute
    cases hE : authenticate now req with
    | mk a b =>
      rw [hE] at hA
      simp only at hA
      subst hA
      rfl
  · rw [authenticate_reply_is_401 now req r hA]
  · unfold runProtectedRoute
    simp only [hB1]
    rw [hB2]
  · rw [authorize_reply_is_403 roles₂ reqB₂ r₂ hB2]
    rfl

/-- Witness for gate_rejection_precedes_handler: a request with no
bearer token is rejected 401 without the handler, and a USER identity
hitting an ADMIN route is rejected 403 without the handler. -/
theorem gate_rejection_precedes_handler_witness :
    runProtectedRoute 0 [UserRole.ADMIN] ⟨200, "handler"⟩
        { bearer := none, user := none } =
      ([⟨401, "Unauthorized"⟩], false) ∧
    (⟨401, "Unauthorized"⟩ : Reply).status = 401 ∧
    runProtectedRoute 0 [UserRole.ADMIN] ⟨200, "handler"⟩
        { bearer := some (Token.signed ⟨1, "A", UserRole.USER⟩ accessTokenTtl 0),
          user := none } =
      ([⟨403, "Forbidden - insufficient role"⟩], false) ∧
    (⟨403, "Forbidden - insufficient role"⟩ : Reply).status = 403 := by
  exact gate_rejection_precedes_handler 0 0 [UserRole.ADMIN] [UserRole.ADMIN]
    ⟨200, "handler"⟩ ⟨200, "handler"⟩ ⟨401, "Unauthorized"⟩
    ⟨403, "Forbidden - insufficient role"⟩
    { bearer := none, user := none }
    { bearer := some (Token.signed ⟨1, "A", UserRole.USER⟩ accessTokenTtl 0),
      user := none }
    { bearer := some (Token.signed ⟨1, "A", UserRole.USER⟩ accessTokenTtl 0),
      user := some ⟨1, "A", UserRole.USER⟩ }
    rfl rfl rfl

/-- C8 counterexample: with both read phases scheduled before either
write phase (the update is unconditional and keyed only on the account
id), two rotate calls presenting the same currently-valid token both
succeed, each reporting its own distinct replacement token, against the
claim that at most one of them can succeed. -/
theorem rotate_race_both_succeed_counterexample :
    (interleavedRotates 1 2 [aliceWith (some tokenA)] tokenA).1.1 =
      Except.ok ⟨Token.signed ⟨1, "A", UserRole.USER⟩ accessTokenTtl 1,
                 tokenA1⟩ ∧
    (interleavedRotates 1 2 [aliceWith (some tokenA)] tokenA).1.2 =
      Except.ok ⟨Token.signed ⟨1, "A", UserRole.USER⟩ accessTokenTtl 2,
                 Token.signed ⟨1, "A", UserRole.USER⟩ refreshTokenTtl 2⟩ ∧
    tokenA1 ≠ Token.signed ⟨1, "A", UserRole.USER⟩ refreshTokenTtl 2 :=
  ⟨rfl, rfl, by decide⟩

/-- C8 (amended): the rotate implementation is a read followed by an
unconditional write rather than an atomic conditional update, so the
loser is rejected only under serial execution: after one rotate call has
completed, a second call presenting the same token against the resulting
state fails with the 401 error (provided the winner persisted a token
distinct from the presented one), while the interleaved schedule in
which both reads precede both writes lets both calls succeed. -/
theorem rotate_race_serial_loser_fails (t₁ t₂ : Nat) (db db₁ : List User)
    (T : Token) (res : RotateOk)
    (h : refreshUserToken t₁ db T = (Except.ok res, db₁))
    (hne : res.refreshToken ≠ T) :
    (refreshUserToken t₂ db₁ T).1 = Except.error invalidOrExpired ∧
    invalidOrExpired.statusCode = 401 :=
  ⟨rotate_then_replay_fails t₁ t₂ db db₁ T res h hne, rfl⟩

/-- Witness for rotate_race_serial_loser_fails: after a completed
rotation of tokenA at second 1, a second rotation of tokenA at second 5
fails with the 401 error. -/
theorem rotate_race_serial_loser_fails_witness :
    (refreshUserToken 5 [aliceWith (some tokenA1)] tokenA).1 =
      Except.error invalidOrExpired ∧
    invalidOrExpired.statusCode = 401 := by
  exact rotate_race_serial_loser_fails 1 5 [aliceWith (some tokenA)]
    [aliceWith (some tokenA1)] tokenA
    ⟨Token.signed ⟨1, "A", UserRole.USER⟩ accessTokenTtl 1, tokenA1⟩
    rfl (by decide)
